import Mathlib

/-!
Shallow embedding of `src/fabscan/scanner/laserscanner/FSScanProcessor.py`
(class `FSScanProcessorSingleton`), the scan orchestration state machine of
FabScanPi-Server.

The orchestrator's mutable attributes become fields of `ScanState`; every
side effect on a collaborator (hardware controller, event manager, worker
pool, file system, semaphore) becomes an `Action` recorded in an ordered
trace, so each method is embedded as `ScanState → ... → ScanState × List Action`
with the actions listed in the source's execution order.  Python's leading
underscores on attribute names are kept.  The point-cloud rows broadcast to
clients are `str(...)`-formatted in the source; the formatting is injective
and is dropped here, keeping the integer payloads.
-/

namespace FabScan

/-- One `(x, y, z, r, g, b)` record of the point cloud, as zipped in
`image_processed` from `event['point_cloud'][0..2]` and `event['texture'][0..2]`. -/
structure PCRecord where
  x : Int
  y : Int
  z : Int
  r : Int
  g : Int
  b : Int
deriving DecidableEq

/-- Camera block of the settings object (`settings.camera`). -/
structure CameraSettings where
  brightness : Int
  contrast : Int
  saturation : Int
deriving DecidableEq

/-- LED block of the settings object (`settings.led`). -/
structure LedSettings where
  red : Int
  green : Int
  blue : Int
deriving DecidableEq

/-- The slice of the settings object read by the scan processor. -/
structure Settings where
  resolution : Nat
  laser_positions : Nat
  color : Bool
  camera : CameraSettings
  led : LedSettings
deriving DecidableEq

/-- The slice of the config object read by the scan processor
(`config.laser.numbers`, `config.process_numbers`, `config.texture_illumination`). -/
structure LaserConfig where
  numbers : Nat
deriving DecidableEq

structure Config where
  laser : LaserConfig
  process_numbers : Nat
  texture_illumination : Int
deriving DecidableEq

/-- The commands of `FSScanProcessorCommand` that drive the scan state machine
(the leading underscore of the two internal self-advance commands is dropped). -/
inductive FSScanProcessorCommand where
  | START
  | STOP
  | SCAN_NEXT_TEXTURE_POSITION
  | SCAN_NEXT_OBJECT_POSITION
deriving DecidableEq

/-- One observable side effect on a collaborator, in source order. -/
inductive Action where
  | settingsModeOff
  | enableMotors
  | disableMotors
  | broadcastInfo (message : String) (level : String)
  | createWorkerPool (n : Nat)
  | killWorkerPool
  | ledOn (r g b : Int)
  | ledOff
  | laserOn
  | laserOff
  | flushStream
  | startStream (flash : Bool)
  | stopStream
  | scanAtPosition (resolution : Nat) (color : Bool)
  | enqueueTask (position : Nat) (number_of_pictures : Nat) (task_type : String)
  | tellCommand (cmd : FSScanProcessorCommand)
  | drainQueue
  | deleteScan
  | deleteImageFolders
  | semAcquire
  | semRelease
  | incrementProgress
  | appendPoints (batch : List PCRecord)
  | broadcastProgress (points : List PCRecord) (progress : Nat) (total : Nat)
  | savePointCloud
  | saveSettingsFile
  | publishComplete
deriving DecidableEq

/-- The mutable attributes of `FSScanProcessorSingleton`, plus the referenced
settings/config objects and the worker pool's active flag. -/
structure ScanState where
  _resolution : Nat
  _number_of_pictures : Nat
  _total : Nat
  _laser_positions : Nat
  _progress : Nat
  _is_color_scan : Bool
  point_cloud : Option (List PCRecord)
  current_position : Nat
  _stop_scan : Bool
  _scan_brightness : Int
  _scan_contrast : Int
  _scan_saturation : Int
  workers_active : Bool
  settings : Settings
  config : Config
deriving DecidableEq

/-- `init_texture_scan`: broadcast `SCANNING_TEXTURE`, create the worker pool,
save the camera brightness/contrast/saturation and override them with the
fixed texture-capture values, switch on the LED at the texture illumination
level, flush and start the camera stream with flash exposure. -/
def init_texture_scan (s : ScanState) : ScanState × List Action :=
  ({ s with
      _scan_brightness := s.settings.camera.brightness
      _scan_contrast := s.settings.camera.contrast
      _scan_saturation := s.settings.camera.saturation
      workers_active := true
      settings := { s.settings with
        camera := { brightness := 50, contrast := 0, saturation := 0 } } },
   [Action.broadcastInfo "SCANNING_TEXTURE" "info",
    Action.createWorkerPool s.config.process_numbers,
    Action.ledOn s.config.texture_illumination s.config.texture_illumination
      s.config.texture_illumination,
    Action.flushStream,
    Action.startStream true])

/-- `finish_texture_scan`: reset `current_position` to `0`, stop and flush the
camera stream, switch the LED off and restore the saved camera settings. -/
def finish_texture_scan (s : ScanState) : ScanState × List Action :=
  ({ s with
      current_position := 0
      settings := { s.settings with
        camera := { brightness := s._scan_brightness, contrast := s._scan_contrast,
                    saturation := s._scan_saturation } } },
   [Action.stopStream, Action.flushStream, Action.ledOff])

/-- `scan_next_texture_position`: one step of the texture phase loop.  Guarded
by `_stop_scan`; while `current_position <= _number_of_pictures` it initializes
the phase at position `0`, acquires a color frame, enqueues a
`PROCESS_COLOR_IMAGE` task, increments `current_position` and self-posts the
texture command; past the last position it drains the task queue, finishes the
texture phase and self-posts the object command. -/
def scan_next_texture_position (s : ScanState) : ScanState × List Action :=
  if s._stop_scan = false then
    if s.current_position ≤ s._number_of_pictures then
      let r0 := if s.current_position = 0 then init_texture_scan s else (s, [])
      ({ r0.1 with current_position := r0.1.current_position + 1 },
       r0.2 ++
        [Action.scanAtPosition r0.1._resolution true,
         Action.enqueueTask r0.1.current_position r0.1._number_of_pictures
           "PROCESS_COLOR_IMAGE",
         Action.tellCommand FSScanProcessorCommand.SCAN_NEXT_TEXTURE_POSITION])
    else
      let r1 := finish_texture_scan s
      (r1.1,
       Action.drainQueue ::
        (r1.2 ++ [Action.tellCommand FSScanProcessorCommand.SCAN_NEXT_OBJECT_POSITION]))
  else (s, [])

/-- Modelled from the spec: `FSImageTask.ImageTask`
(`fabscan/vision/FSImageTask.py`, not under `src/`) is built without an
explicit `task_type` in `scan_next_object_position`; the spec's task kinds are
`PROCESS_COLOR_IMAGE` and `PROCESS_LASER_IMAGE`, so the default kind of a
laser-phase task is the laser-processing kind. -/
def default_task_type : String := "PROCESS_LASER_IMAGE"

/-- `init_object_scan`: broadcast `SCANNING_OBJECT`, reset `current_position`,
re-read `laser_positions` from the settings, switch on the LED with the
configured scan color and the laser, start and flush the camera stream, and
create the worker pool if it is not active. -/
def init_object_scan (s : ScanState) : ScanState × List Action :=
  ({ s with
      current_position := 0
      _laser_positions := s.settings.laser_positions
      workers_active := true },
   [Action.broadcastInfo "SCANNING_OBJECT" "info",
    Action.ledOn s.settings.led.red s.settings.led.green s.settings.led.blue,
    Action.laserOn,
    Action.startStream false,
    Action.flushStream] ++
   (if s.workers_active = false then [Action.createWorkerPool s.config.process_numbers]
    else []))

/-- `finish_object_scan`: kill the worker pool and stop the camera stream. -/
def finish_object_scan (s : ScanState) : ScanState × List Action :=
  ({ s with workers_active := false }, [Action.killWorkerPool, Action.stopStream])

/-- `scan_next_object_position`: one step of the object/laser phase loop,
symmetric to the texture step but finishing without draining the queue and
without a further self-post. -/
def scan_next_object_position (s : ScanState) : ScanState × List Action :=
  if s._stop_scan = false then
    if s.current_position ≤ s._number_of_pictures then
      let r0 := if s.current_position = 0 then init_object_scan s else (s, [])
      ({ r0.1 with current_position := r0.1.current_position + 1 },
       r0.2 ++
        [Action.scanAtPosition r0.1._resolution false,
         Action.enqueueTask r0.1.current_position r0.1._number_of_pictures
           default_task_type,
         Action.tellCommand FSScanProcessorCommand.SCAN_NEXT_OBJECT_POSITION])
    else
      let r1 := finish_object_scan s
      (r1.1, r1.2)
  else (s, [])

/-- `start_scan`: switch settings mode off, clear `_stop_scan`, enable the
turntable motors, snapshot resolution / laser positions / color flag from the
settings, compute `_number_of_pictures = 3200 / resolution` (integer
division), reset `current_position`, allocate a fresh point cloud, compute
`_total` from `config.laser.numbers`, and self-post the first phase command. -/
def start_scan (s : ScanState) : ScanState × List Action :=
  let s1 : ScanState :=
    { s with
        _stop_scan := false
        _resolution := s.settings.resolution
        _laser_positions := s.settings.laser_positions
        _is_color_scan := s.settings.color
        _number_of_pictures := 3200 / s.settings.resolution
        current_position := 0
        point_cloud := some [] }
  if s1._is_color_scan then
    ({ s1 with _total := s1._number_of_pictures * 2 * s.config.laser.numbers },
     [Action.settingsModeOff, Action.enableMotors,
      Action.tellCommand FSScanProcessorCommand.SCAN_NEXT_TEXTURE_POSITION])
  else
    ({ s1 with _total := s1._number_of_pictures * s.config.laser.numbers },
     [Action.settingsModeOff, Action.enableMotors,
      Action.tellCommand FSScanProcessorCommand.SCAN_NEXT_OBJECT_POSITION])

/-- `reset_scanner_state`: flush the camera stream, switch laser, LED and
motors off, and zero `_progress`, `current_position`, `_number_of_pictures`
and `_total`, dropping the point cloud. -/
def reset_scanner_state (s : ScanState) : ScanState × List Action :=
  ({ s with
      _progress := 0
      current_position := 0
      _number_of_pictures := 0
      _total := 0
      point_cloud := none },
   [Action.flushStream, Action.laserOff, Action.ledOff, Action.disableMotors])

/-- `stop_scan`: set `_stop_scan`, kill the worker pool, delete the scan's
artifacts, reset the scanner state, stop the camera stream and broadcast
`SCAN_CANCELED`. -/
def stop_scan (s : ScanState) : ScanState × List Action :=
  let s1 : ScanState := { s with _stop_scan := true, workers_active := false }
  let r := reset_scanner_state s1
  (r.1,
   [Action.killWorkerPool, Action.deleteScan] ++ r.2 ++
    [Action.stopStream, Action.broadcastInfo "SCAN_CANCELED" "info"])

/-- `scan_complete`: save the point cloud and a settings sidecar file,
broadcast `SAVING_POINT_CLOUD`, delete the intermediate image folders, reset
the scanner state, publish the `COMPLETE` command, broadcast `SCAN_COMPLETE`
and stop the camera stream. -/
def scan_complete (s : ScanState) : ScanState × List Action :=
  let r := reset_scanner_state s
  (r.1,
   [Action.savePointCloud, Action.saveSettingsFile,
    Action.broadcastInfo "SAVING_POINT_CLOUD" "info",
    Action.deleteImageFolders] ++ r.2 ++
   [Action.publishComplete,
    Action.broadcastInfo "SCAN_COMPLETE" "success",
    Action.stopStream])

/-- `append_points`: append a batch to the point cloud, guarded by the Python
truthiness check `if self.point_cloud:` (a dropped cloud rejects the append). -/
def append_points (s : ScanState) (point_cloud_set : List PCRecord) : ScanState :=
  match s.point_cloud with
  | some pc => { s with point_cloud := some (pc ++ point_cloud_set) }
  | none => s

/-- One completion event posted on `ON_IMAGE_PROCESSED`, with the three
coordinate arrays of `event['point_cloud']` and the three color arrays of
`event['texture']`. -/
structure ImageEvent where
  image_type : String
  point_cloud0 : List Int
  point_cloud1 : List Int
  point_cloud2 : List Int
  texture0 : List Int
  texture1 : List Int
  texture2 : List Int
deriving DecidableEq

/-- Python's six-argument `zip`, truncating to the shortest input. -/
def zip6 : List Int → List Int → List Int → List Int → List Int → List Int →
    List PCRecord
  | x :: xs, y :: ys, z :: zs, r :: rs, g :: gs, b :: bs =>
    ⟨x, y, z, r, g, b⟩ :: zip6 xs ys zs rs gs bs
  | _, _, _, _, _, _ => []

/-- The zipped `(x, y, z, r, g, b)` rows of an event. -/
def zipEvent (ev : ImageEvent) : List PCRecord :=
  zip6 ev.point_cloud0 ev.point_cloud1 ev.point_cloud2
    ev.texture0 ev.texture1 ev.texture2

/-- The per-point dictionary built for the progress broadcast:
`x = point[0]`, `y = point[2]`, `z = point[1]`, `r = point[5]`,
`g = point[4]`, `b = point[3]`. -/
def swap_point (p : PCRecord) : PCRecord :=
  { x := p.x, y := p.z, z := p.y, r := p.b, g := p.g, b := p.r }

/-- `image_processed`: handler of a worker's completion event.  For a
depth-type event, zip the point batch, append it to the point cloud and build
the swapped broadcast rows; then increment `_progress` inside the semaphore,
broadcast the progress notice, and when `_progress == _total` drain the task
queue and run `scan_complete`. -/
def image_processed (s : ScanState) (ev : ImageEvent) : ScanState × List Action :=
  let depth := ev.image_type = "depth"
  let batch := zipEvent ev
  let points := if depth then batch.map swap_point else []
  let s1 := if depth then append_points s batch else s
  let preActs := if depth then [Action.appendPoints batch] else []
  let s2 : ScanState := { s1 with _progress := s1._progress + 1 }
  let acts := preActs ++
    [Action.semAcquire, Action.incrementProgress, Action.semRelease,
     Action.broadcastProgress points s2._progress s2._total]
  if s2._progress = s2._total then
    let r := scan_complete s2
    (r.1, acts ++ [Action.drainQueue] ++ r.2)
  else
    (s2, acts)

/-- The `on_receive` dispatch for the four state-machine commands. -/
def on_receive (s : ScanState) (cmd : FSScanProcessorCommand) : ScanState × List Action :=
  match cmd with
  | FSScanProcessorCommand.START => start_scan s
  | FSScanProcessorCommand.STOP => stop_scan s
  | FSScanProcessorCommand.SCAN_NEXT_TEXTURE_POSITION => scan_next_texture_position s
  | FSScanProcessorCommand.SCAN_NEXT_OBJECT_POSITION => scan_next_object_position s

/-- Sequential processing of a list of completion events (the event manager
delivers `ON_IMAGE_PROCESSED` callbacks one at a time to the single-threaded
command loop), concatenating the traces. -/
def process_events (s : ScanState) : List ImageEvent → ScanState × List Action
  | [] => (s, [])
  | ev :: rest =>
    let r := image_processed s ev
    let r2 := process_events r.1 rest
    (r2.1, r.2 ++ r2.2)

/-- Number of finalizations recorded in a trace: `scan_complete` is the only
function publishing the `COMPLETE` command. -/
def countComplete (tr : List Action) : Nat :=
  (tr.filter fun a =>
    match a with
    | Action.publishComplete => true
    | _ => false).length

/-- Run the texture phase loop: deliver the texture self-advance command as
long as the previous step re-posted it, with `fuel` bounding the number of
delivered commands. -/
def run_texture : Nat → ScanState → ScanState × List Action
  | 0, s => (s, [])
  | Nat.succ f, s =>
    let r := scan_next_texture_position s
    if Action.tellCommand FSScanProcessorCommand.SCAN_NEXT_TEXTURE_POSITION ∈ r.2 then
      let r2 := run_texture f r.1
      (r2.1, r.2 ++ r2.2)
    else
      r

/-- Run the object phase loop, analogously. -/
def run_object : Nat → ScanState → ScanState × List Action
  | 0, s => (s, [])
  | Nat.succ f, s =>
    let r := scan_next_object_position s
    if Action.tellCommand FSScanProcessorCommand.SCAN_NEXT_OBJECT_POSITION ∈ r.2 then
      let r2 := run_object f r.1
      (r2.1, r.2 ++ r2.2)
    else
      r

/-- Frame acquisitions (`scan_at_position` calls) recorded in a trace. -/
def acquisition_count (tr : List Action) : Nat :=
  (tr.filter fun a =>
    match a with
    | Action.scanAtPosition _ _ => true
    | _ => false).length

/-- The positions of the tasks enqueued in a trace, in order. -/
def enqueued_positions (tr : List Action) : List Nat :=
  tr.filterMap fun a =>
    match a with
    | Action.enqueueTask position _ _ => some position
    | _ => none

/-- The task kinds enqueued in a trace, in order. -/
def enqueued_kinds (tr : List Action) : List String :=
  tr.filterMap fun a =>
    match a with
    | Action.enqueueTask _ _ task_type => some task_type
    | _ => none

/-- Modelled from the spec: each worker of `FSImageWorkerPool`
(`fabscan/vision/FSImageWorker.py`, not under `src/`) dequeues one task,
invokes the image processor on it and posts exactly one completion event per
task; a laser task yields a depth-type event carrying the frame's 3D point
batch and texture colors, a color task yields a completion event with no 3D
geometry.  The point batch itself comes from the external vision pipeline and
is represented by the given sample record. -/
def worker_event_of_task (task_type : String) (sample : PCRecord) : ImageEvent :=
  if task_type = default_task_type then
    { image_type := "depth",
      point_cloud0 := [sample.x], point_cloud1 := [sample.y], point_cloud2 := [sample.z],
      texture0 := [sample.r], texture1 := [sample.g], texture2 := [sample.b] }
  else
    { image_type := "color",
      point_cloud0 := [], point_cloud1 := [], point_cloud2 := [],
      texture0 := [], texture1 := [], texture2 := [] }

/-- The completion events produced by the workers for the tasks enqueued in a
trace, in order. -/
def worker_events (tr : List Action) (sample : PCRecord) : List ImageEvent :=
  (enqueued_kinds tr).map fun t => worker_event_of_task t sample

/-- The actions of a trace executed while the semaphore is held: the flag
tracks `semaphore.acquire()` / `semaphore.release()` across the trace. -/
def actions_inside_critical : List Action → Bool → List Action
  | [], _ => []
  | Action.semAcquire :: rest, _ => actions_inside_critical rest true
  | Action.semRelease :: rest, _ => actions_inside_critical rest false
  | a :: rest, held => (if held then [a] else []) ++ actions_inside_critical rest held

/-- A concrete settings object: resolution 200 (16 frames per rotation), two
laser positions, color scan enabled. -/
def exampleSettings : Settings :=
  { resolution := 200, laser_positions := 2, color := true,
    camera := { brightness := 40, contrast := 10, saturation := 20 },
    led := { red := 100, green := 110, blue := 120 } }

/-- A concrete config object: two lasers, four worker processes. -/
def exampleConfig : Config :=
  { laser := { numbers := 2 }, process_numbers := 4, texture_illumination := 80 }

/-- The processor's state right after `__init__`, holding the example
settings and config. -/
def exampleState : ScanState :=
  { _resolution := 16, _number_of_pictures := 0, _total := 0, _laser_positions := 1,
    _progress := 0, _is_color_scan := true, point_cloud := none,
    current_position := 0, _stop_scan := false, _scan_brightness := 40,
    _scan_contrast := 10, _scan_saturation := 20, workers_active := false,
    settings := exampleSettings, config := exampleConfig }

/-- The session state right after `START` with the example settings:
16 frames per rotation, `_total = 64`. -/
def colorStartState : ScanState := (start_scan exampleState).1

/-- A sample 3D point with texture color, as produced by the vision pipeline. -/
def samplePoint : PCRecord := { x := 10, y := 20, z := 30, r := 1, g := 2, b := 3 }

/-- A concrete depth-type completion event carrying `samplePoint`. -/
def depthEventEx : ImageEvent :=
  { image_type := "depth",
    point_cloud0 := [10], point_cloud1 := [20], point_cloud2 := [30],
    texture0 := [1], texture1 := [2], texture2 := [3] }

/-- The trace of the full texture phase loop from the started example state. -/
def textureTrace : List Action := (run_texture 18 colorStartState).2

/-- The state after the texture phase loop of the example session. -/
def afterTexture : ScanState := (run_texture 18 colorStartState).1

/-- The trace of the full object phase loop of the example session. -/
def objectTrace : List Action := (run_object 18 afterTexture).2

/-- The example session state after the 17 texture completion events. -/
def afterTextureProcessed : ScanState :=
  (process_events afterTexture (worker_events textureTrace samplePoint)).1

/-- A started state whose settings laser count (2) differs from the config
laser count (1). -/
def mismatchStartState : ScanState :=
  (start_scan { exampleState with
    config := { exampleConfig with laser := { numbers := 1 } } }).1

/-- A started session with one frame per rotation (resolution 3200) and a
single config laser: `_number_of_pictures = 1`, `_total = 2`. -/
def smallStartState : ScanState :=
  (start_scan { exampleState with
    settings := { exampleSettings with resolution := 3200 },
    config := { exampleConfig with laser := { numbers := 1 } } }).1

/-- The example session state after teardown. -/
def tornState : ScanState := (reset_scanner_state colorStartState).1

/-- The example state with a pending stop request. -/
def stoppedState : ScanState := { colorStartState with _stop_scan := true }

/-! Helper lemmas. -/

@[simp]
theorem append_points_progress (s : ScanState) (b : List PCRecord) :
    (append_points s b)._progress = s._progress := by
  unfold append_points
  cases s.point_cloud <;> rfl

@[simp]
theorem append_points_total (s : ScanState) (b : List PCRecord) :
    (append_points s b)._total = s._total := by
  unfold append_points
  cases s.point_cloud <;> rfl

theorem append_points_cloud (s : ScanState) (b : List PCRecord) (pc : List PCRecord)
    (h : s.point_cloud = some pc) :
    (append_points s b).point_cloud = some (pc ++ b) := by
  unfold append_points
  rw [h]

theorem append_points_cloud_none (s : ScanState) (b : List PCRecord)
    (h : s.point_cloud = none) :
    (append_points s b).point_cloud = none := by
  unfold append_points
  rw [h]
  exact h

theorem countComplete_append (l1 l2 : List Action) :
    countComplete (l1 ++ l2) = countComplete l1 + countComplete l2 := by
  simp [countComplete, List.filter_append]

theorem image_processed_progress (s : ScanState) (ev : ImageEvent) :
    (image_processed s ev).1._progress =
      if s._progress + 1 = s._total then 0 else s._progress + 1 := by
  unfold image_processed scan_complete reset_scanner_state
  by_cases hd : ev.image_type = "depth" <;>
    by_cases ht : s._progress + 1 = s._total <;>
      simp [hd, ht]

theorem image_processed_total (s : ScanState) (ev : ImageEvent) :
    (image_processed s ev).1._total =
      if s._progress + 1 = s._total then 0 else s._total := by
  unfold image_processed scan_complete reset_scanner_state
  by_cases hd : ev.image_type = "depth" <;>
    by_cases ht : s._progress + 1 = s._total <;>
      simp [hd, ht]

theorem countComplete_image_processed (s : ScanState) (ev : ImageEvent) :
    countComplete (image_processed s ev).2 =
      if s._progress + 1 = s._total then 1 else 0 := by
  unfold image_processed scan_complete reset_scanner_state
  by_cases hd : ev.image_type = "depth" <;>
    by_cases ht : s._progress + 1 = s._total <;>
      simp [hd, ht, countComplete]

theorem countComplete_process_events_total_zero (evs : List ImageEvent) :
    ∀ s : ScanState, s._total = 0 →
      countComplete (process_events s evs).2 = 0 := by
  induction evs with
  | nil =>
    intro s _
    simp [process_events, countComplete]
  | cons ev rest ih =>
    intro s h
    simp only [process_events]
    rw [countComplete_append]
    have h1 := countComplete_image_processed s ev
    have h2 := image_processed_total s ev
    rw [h] at h1 h2
    rw [if_neg (Nat.succ_ne_zero _)] at h1 h2
    rw [h1, ih _ h2]

theorem countComplete_process_events (evs : List ImageEvent) :
    ∀ s : ScanState, s._progress < s._total →
      countComplete (process_events s evs).2 =
        if s._total - s._progress ≤ evs.length then 1 else 0 := by
  induction evs with
  | nil =>
    intro s h
    have hn : ¬ s._total - s._progress ≤ ([] : List ImageEvent).length := by
      simp only [List.length_nil]
      omega
    rw [if_neg hn]
    simp [process_events, countComplete]
  | cons ev rest ih =>
    intro s h
    simp only [process_events]
    rw [countComplete_append, countComplete_image_processed]
    by_cases ht : s._progress + 1 = s._total
    · rw [if_pos ht]
      have h2 : (image_processed s ev).1._total = 0 := by
        rw [image_processed_total, if_pos ht]
      rw [countComplete_process_events_total_zero rest _ h2]
      have hle : s._total - s._progress ≤ (ev :: rest).length := by
        simp only [List.length_cons]
        omega
      rw [if_pos hle]
    · rw [if_neg ht]
      have hp : (image_processed s ev).1._progress = s._progress + 1 := by
        rw [image_processed_progress, if_neg ht]
      have h2 : (image_processed s ev).1._total = s._total := by
        rw [image_processed_total, if_neg ht]
      rw [ih _ (by rw [hp, h2]; omega)]
      rw [hp, h2]
      simp only [List.length_cons]
      by_cases hr : s._total - (s._progress + 1) ≤ rest.length
      · rw [if_pos hr, if_pos (by omega)]
      · rw [if_neg hr, if_neg (by omega)]

theorem start_scan_fields (s : ScanState) :
    (start_scan s).1.current_position = 0 ∧
    (start_scan s).1._stop_scan = false ∧
    (start_scan s).1._resolution = s.settings.resolution ∧
    (start_scan s).1._laser_positions = s.settings.laser_positions ∧
    (start_scan s).1._is_color_scan = s.settings.color ∧
    (start_scan s).1._number_of_pictures = 3200 / s.settings.resolution ∧
    (start_scan s).1.point_cloud = some [] ∧
    (start_scan s).1._progress = s._progress ∧
    (start_scan s).1._total =
      (if s.settings.color then
        (3200 / s.settings.resolution) * 2 * s.config.laser.numbers
       else (3200 / s.settings.resolution) * s.config.laser.numbers) := by
  unfold start_scan
  by_cases hc : s.settings.color <;> simp [hc]

/-! Claim theorems. -/

/-- C1 (counterexample): with settings `resolution = 200`,
`laser_positions = 2`, `color = true` but a config laser count of `1`, START
computes `_total = 32`, not `framesPerRotation * 2 * laserPositions = 64`
with the laser count snapshotted from settings; so the claim's formula over
the settings snapshot is false. -/
theorem expected_total_ignores_settings_laser_count :
    mismatchStartState._is_color_scan = true ∧
    mismatchStartState._number_of_pictures = 16 ∧
    mismatchStartState._laser_positions = 2 ∧
    mismatchStartState._total = 32 ∧
    mismatchStartState._total ≠
      mismatchStartState._number_of_pictures * 2 * mismatchStartState._laser_positions := by
  decide

/-- C1 (amended): at START the orchestrator snapshots resolution, settings
laser count and color flag, computes `framesPerRotation = 3200 / resolution`,
and computes `expectedTotalFrames = framesPerRotation * 2 * configLaserCount`
when the scan is color, else `framesPerRotation * configLaserCount`, where
`configLaserCount` is `config.laser.numbers`, not the settings snapshot; this
holds for every settings state at the moment START is processed. -/
theorem start_scan_snapshots_and_total (s : ScanState) :
    (start_scan s).1._resolution = s.settings.resolution ∧
    (start_scan s).1._laser_positions = s.settings.laser_positions ∧
    (start_scan s).1._is_color_scan = s.settings.color ∧
    (start_scan s).1._number_of_pictures = 3200 / s.settings.resolution ∧
    (start_scan s).1._total =
      (if s.settings.color then
        (3200 / s.settings.resolution) * 2 * s.config.laser.numbers
       else (3200 / s.settings.resolution) * s.config.laser.numbers) := by
  have h := start_scan_fields s
  exact ⟨h.2.2.1, h.2.2.2.1, h.2.2.2.2.1, h.2.2.2.2.2.1, h.2.2.2.2.2.2.2.2⟩

/-- C2 (code bug evidence): in `image_processed`, for a depth-type completion
event the progress increment runs inside the semaphore-guarded region while
the point-cloud append runs before `semaphore.acquire()`, outside the region,
so the append+increment pair of a frame is not one atomic unit inside a
single mutual-exclusion region. -/
theorem append_not_inside_critical_section :
    Action.incrementProgress ∈
        actions_inside_critical (image_processed colorStartState depthEventEx).2 false ∧
    Action.appendPoints (zipEvent depthEventEx) ∈
        (image_processed colorStartState depthEventEx).2 ∧
    Action.appendPoints (zipEvent depthEventEx) ∉
        actions_inside_critical (image_processed colorStartState depthEventEx).2 false := by
  decide

/-- C3: from a session state with `_progress = 0` and `_total > 0`, over any
sequence of frame-completion events finalization runs exactly when the
progress counter reaches `_total` — once as soon as `_total` events have been
processed and not otherwise — and over the whole sequence it never runs a
second time. -/
theorem finalization_exactly_once (s : ScanState) (evs : List ImageEvent)
    (hp : s._progress = 0) (ht : 0 < s._total) :
    countComplete (process_events s evs).2 =
      (if s._total ≤ evs.length then 1 else 0) ∧
    countComplete (process_events s evs).2 ≤ 1 := by
  have h := countComplete_process_events evs s (by omega)
  rw [hp, Nat.sub_zero] at h
  refine ⟨h, ?_⟩
  rw [h]
  by_cases hle : s._total ≤ evs.length
  · rw [if_pos hle]
  · rw [if_neg hle]
    omega

/-- Witness for C3 at the one-frame session (`_total = 2`) and two events. -/
theorem finalization_exactly_once_witness :
    smallStartState._progress = 0 ∧ 0 < smallStartState._total ∧
    (countComplete (process_events smallStartState [depthEventEx, depthEventEx]).2 =
        (if smallStartState._total ≤ ([depthEventEx, depthEventEx] : List ImageEvent).length
         then 1 else 0) ∧
      countComplete (process_events smallStartState [depthEventEx, depthEventEx]).2 ≤ 1) :=
  ⟨rfl, by decide,
    finalization_exactly_once smallStartState [depthEventEx, depthEventEx] rfl (by decide)⟩

theorem acquisition_count_append (l1 l2 : List Action) :
    acquisition_count (l1 ++ l2) = acquisition_count l1 + acquisition_count l2 := by
  simp [acquisition_count, List.filter_append]

theorem enqueued_positions_append (l1 l2 : List Action) :
    enqueued_positions (l1 ++ l2) = enqueued_positions l1 ++ enqueued_positions l2 := by
  simp [enqueued_positions, List.filterMap_append]

theorem scan_next_texture_acquire (s : ScanState) (h1 : s._stop_scan = false)
    (h2 : s.current_position ≤ s._number_of_pictures) :
    (scan_next_texture_position s).1.current_position = s.current_position + 1 ∧
    (scan_next_texture_position s).1._number_of_pictures = s._number_of_pictures ∧
    (scan_next_texture_position s).1._stop_scan = false ∧
    (scan_next_texture_position s).1._total = s._total ∧
    acquisition_count (scan_next_texture_position s).2 = 1 ∧
    enqueued_positions (scan_next_texture_position s).2 = [s.current_position] ∧
    Action.tellCommand FSScanProcessorCommand.SCAN_NEXT_TEXTURE_POSITION ∈
      (scan_next_texture_position s).2 := by
  unfold scan_next_texture_position
  rw [if_pos h1, if_pos h2]
  by_cases h0 : s.current_position = 0 <;>
    simp [h0, init_texture_scan, acquisition_count, enqueued_positions] <;>
      exact h1

theorem scan_next_texture_finish_trace (s : ScanState) (h1 : s._stop_scan = false)
    (h2 : ¬ s.current_position ≤ s._number_of_pictures) :
    (scan_next_texture_position s).2 =
      [Action.drainQueue, Action.stopStream, Action.flushStream, Action.ledOff,
       Action.tellCommand FSScanProcessorCommand.SCAN_NEXT_OBJECT_POSITION] := by
  unfold scan_next_texture_position
  rw [if_pos h1, if_neg h2]
  simp [finish_texture_scan]

theorem scan_next_object_acquire (s : ScanState) (h1 : s._stop_scan = false)
    (h2 : s.current_position ≤ s._number_of_pictures) :
    (scan_next_object_position s).1.current_position = s.current_position + 1 ∧
    (scan_next_object_position s).1._number_of_pictures = s._number_of_pictures ∧
    (scan_next_object_position s).1._stop_scan = false ∧
    (scan_next_object_position s).1._total = s._total ∧
    acquisition_count (scan_next_object_position s).2 = 1 ∧
    enqueued_positions (scan_next_object_position s).2 = [s.current_position] ∧
    Action.tellCommand FSScanProcessorCommand.SCAN_NEXT_OBJECT_POSITION ∈
      (scan_next_object_position s).2 := by
  unfold scan_next_object_position
  rw [if_pos h1, if_pos h2]
  by_cases h0 : s.current_position = 0 <;>
    by_cases hw : s.workers_active <;>
      simp [h0, hw, init_object_scan, acquisition_count, enqueued_positions] <;>
        exact h1

theorem scan_next_object_finish_trace (s : ScanState) (h1 : s._stop_scan = false)
    (h2 : ¬ s.current_position ≤ s._number_of_pictures) :
    (scan_next_object_position s).2 = [Action.killWorkerPool, Action.stopStream] := by
  unfold scan_next_object_position
  rw [if_pos h1, if_neg h2]
  simp [finish_object_scan]

theorem run_texture_spec (fuel : Nat) :
    ∀ s : ScanState, s._stop_scan = false →
      s.current_position ≤ s._number_of_pictures + 1 →
      s._number_of_pictures + 2 - s.current_position ≤ fuel →
      acquisition_count (run_texture fuel s).2 =
          s._number_of_pictures + 1 - s.current_position ∧
      enqueued_positions (run_texture fuel s).2 =
        List.range' s.current_position
          (s._number_of_pictures + 1 - s.current_position) := by
  induction fuel with
  | zero =>
    intro s _ h2 h3
    exfalso
    omega
  | succ f ih =>
    intro s h1 h2 h3
    by_cases hp : s.current_position ≤ s._number_of_pictures
    · obtain ⟨e1, e2, e3, _, e5, e6, e7⟩ := scan_next_texture_acquire s h1 hp
      simp only [run_texture]
      rw [if_pos e7]
      have hrec := ih (scan_next_texture_position s).1 e3
        (by rw [e1, e2]; omega) (by rw [e1, e2]; omega)
      rw [e1, e2] at hrec
      constructor
      · rw [acquisition_count_append, e5, hrec.1]
        omega
      · rw [enqueued_positions_append, e6, hrec.2]
        have hn : s._number_of_pictures + 1 - s.current_position =
            (s._number_of_pictures - s.current_position) + 1 := by omega
        have hn2 : s._number_of_pictures + 1 - (s.current_position + 1) =
            s._number_of_pictures - s.current_position := by omega
        rw [hn, hn2, List.range'_succ]
        rfl
    · have hp1 : s._number_of_pictures + 1 - s.current_position = 0 := by omega
      have htr := scan_next_texture_finish_trace s h1 hp
      simp only [run_texture]
      rw [htr, if_neg (by decide), hp1, htr]
      constructor
      · rfl
      · rfl

theorem run_object_spec (fuel : Nat) :
    ∀ s : ScanState, s._stop_scan = false →
      s.current_position ≤ s._number_of_pictures + 1 →
      s._number_of_pictures + 2 - s.current_position ≤ fuel →
      acquisition_count (run_object fuel s).2 =
          s._number_of_pictures + 1 - s.current_position ∧
      enqueued_positions (run_object fuel s).2 =
        List.range' s.current_position
          (s._number_of_pictures + 1 - s.current_position) := by
  induction fuel with
  | zero =>
    intro s _ h2 h3
    exfalso
    omega
  | succ f ih =>
    intro s h1 h2 h3
    by_cases hp : s.current_position ≤ s._number_of_pictures
    · obtain ⟨e1, e2, e3, _, e5, e6, e7⟩ := scan_next_object_acquire s h1 hp
      simp only [run_object]
      rw [if_pos e7]
      have hrec := ih (scan_next_object_position s).1 e3
        (by rw [e1, e2]; omega) (by rw [e1, e2]; omega)
      rw [e1, e2] at hrec
      constructor
      · rw [acquisition_count_append, e5, hrec.1]
        omega
      · rw [enqueued_positions_append, e6, hrec.2]
        have hn : s._number_of_pictures + 1 - s.current_position =
            (s._number_of_pictures - s.current_position) + 1 := by omega
        have hn2 : s._number_of_pictures + 1 - (s.current_position + 1) =
            s._number_of_pictures - s.current_position := by omega
        rw [hn, hn2, List.range'_succ]
        rfl
    · have hp1 : s._number_of_pictures + 1 - s.current_position = 0 := by omega
      have htr := scan_next_object_finish_trace s h1 hp
      simp only [run_object]
      rw [htr, if_neg (by decide), hp1, htr]
      constructor
      · rfl
      · rfl

/-- C4: for every `resolutionSteps` dividing 3200 evenly, after START
`_number_of_pictures = 3200 / resolutionSteps`, and each phase loop (texture
and object), run to its natural end without STOP, performs exactly
`_number_of_pictures + 1` frame acquisitions, at positions `0` through
`_number_of_pictures` inclusive, before stopping. -/
theorem phase_loops_do_frames_plus_one (k : Nat) (s : ScanState) (fuel : Nat)
    (hk : 0 < k) (hdvd : k ∣ 3200) (hres : s.settings.resolution = k)
    (hfuel : 3200 / k + 2 ≤ fuel) :
    (start_scan s).1._number_of_pictures = 3200 / k ∧
    acquisition_count (run_texture fuel (start_scan s).1).2 = 3200 / k + 1 ∧
    enqueued_positions (run_texture fuel (start_scan s).1).2 =
      List.range (3200 / k + 1) ∧
    acquisition_count (run_object fuel (start_scan s).1).2 = 3200 / k + 1 ∧
    enqueued_positions (run_object fuel (start_scan s).1).2 =
      List.range (3200 / k + 1) := by
  obtain ⟨f1, f2, _, _, _, f6, _, _, _⟩ := start_scan_fields s
  rw [hres] at f6
  have ht := run_texture_spec fuel (start_scan s).1 f2
    (by rw [f1, f6]; omega) (by rw [f1, f6]; omega)
  have ho := run_object_spec fuel (start_scan s).1 f2
    (by rw [f1, f6]; omega) (by rw [f1, f6]; omega)
  rw [f1, f6] at ht ho
  simp only [Nat.sub_zero] at ht ho
  rw [List.range_eq_range']
  exact ⟨f6, ht.1, ht.2, ho.1, ho.2⟩

/-- Witness for C4 at `resolutionSteps = 200` and fuel 18. -/
theorem phase_loops_do_frames_plus_one_witness :
    0 < 200 ∧ (200 : Nat) ∣ 3200 ∧ exampleState.settings.resolution = 200 ∧
    3200 / 200 + 2 ≤ 18 ∧
    ((start_scan exampleState).1._number_of_pictures = 3200 / 200 ∧
     acquisition_count (run_texture 18 (start_scan exampleState).1).2 = 3200 / 200 + 1 ∧
     enqueued_positions (run_texture 18 (start_scan exampleState).1).2 =
       List.range (3200 / 200 + 1) ∧
     acquisition_count (run_object 18 (start_scan exampleState).1).2 = 3200 / 200 + 1 ∧
     enqueued_positions (run_object 18 (start_scan exampleState).1).2 =
       List.range (3200 / 200 + 1)) :=
  ⟨by decide, ⟨16, rfl⟩, rfl, by decide,
    phase_loops_do_frames_plus_one 200 exampleState 18 (by decide) ⟨16, rfl⟩ rfl
      (by decide)⟩

/-- C5 (counterexample): with `framesPerRotation = 16` the texture loop
enqueues tasks at positions 0..16 — 17 tasks, so with one completion event
per task the texture phase contributes 17 progress increments, not 16. -/
theorem texture_phase_contributes_17 :
    colorStartState._number_of_pictures = 16 ∧
    enqueued_positions textureTrace = List.range 17 ∧
    (worker_events textureTrace samplePoint).length = 17 ∧
    (process_events colorStartState (worker_events textureTrace samplePoint)).1._progress
      = 17 ∧
    (17 : Nat) ≠ 16 := by
  decide

/-- C5 (amended): for the color scan with `framesPerRotation = 16` and a
config laser count of 2, `expectedTotalFrames = 64`; the texture phase
enqueues exactly 17 color tasks (positions 0..16) whose completion events
each increment progress while appending nothing to the point cloud, and the
laser phase enqueues exactly 17 laser tasks whose completion events each
increment progress and append their point batch. -/
theorem color_scan_phase_contributions :
    colorStartState._total = 64 ∧
    colorStartState._number_of_pictures = 16 ∧
    enqueued_kinds textureTrace = List.replicate 17 "PROCESS_COLOR_IMAGE" ∧
    (process_events colorStartState (worker_events textureTrace samplePoint)).1._progress
      = 17 ∧
    (process_events colorStartState (worker_events textureTrace samplePoint)).1.point_cloud
      = some [] ∧
    enqueued_kinds objectTrace = List.replicate 17 default_task_type ∧
    afterTextureProcessed._progress = 17 ∧
    (process_events afterTextureProcessed (worker_events objectTrace samplePoint)).1._progress
      = 34 ∧
    (process_events afterTextureProcessed (worker_events objectTrace samplePoint)).1.point_cloud
      = some (List.replicate 17 samplePoint) := by
  decide

/-- C6: processing a STOP command in any state sets the cancel flag, kills
the worker pool, deletes the partially written scan artifacts, disables the
turntable motors, switches the laser and the LED off, stops the camera
stream, fully resets the session state (`current_position = 0`,
`_progress = 0`, `_total = 0`, point cloud dropped) and broadcasts a
cancellation notice. -/
theorem stop_command_full_teardown (s : ScanState) :
    (on_receive s FSScanProcessorCommand.STOP).1._stop_scan = true ∧
    (on_receive s FSScanProcessorCommand.STOP).1.workers_active = false ∧
    Action.killWorkerPool ∈ (on_receive s FSScanProcessorCommand.STOP).2 ∧
    Action.deleteScan ∈ (on_receive s FSScanProcessorCommand.STOP).2 ∧
    Action.disableMotors ∈ (on_receive s FSScanProcessorCommand.STOP).2 ∧
    Action.laserOff ∈ (on_receive s FSScanProcessorCommand.STOP).2 ∧
    Action.ledOff ∈ (on_receive s FSScanProcessorCommand.STOP).2 ∧
    Action.stopStream ∈ (on_receive s FSScanProcessorCommand.STOP).2 ∧
    (on_receive s FSScanProcessorCommand.STOP).1.current_position = 0 ∧
    (on_receive s FSScanProcessorCommand.STOP).1._progress = 0 ∧
    (on_receive s FSScanProcessorCommand.STOP).1._total = 0 ∧
    (on_receive s FSScanProcessorCommand.STOP).1.point_cloud = none ∧
    Action.broadcastInfo "SCAN_CANCELED" "info" ∈
      (on_receive s FSScanProcessorCommand.STOP).2 := by
  simp [on_receive, stop_scan, reset_scanner_state]

theorem image_processed_cloud_none (s : ScanState) (ev : ImageEvent)
    (h : s.point_cloud = none) :
    (image_processed s ev).1.point_cloud = none := by
  unfold image_processed scan_complete reset_scanner_state
  by_cases hd : ev.image_type = "depth" <;>
    by_cases ht : s._progress + 1 = s._total <;>
      simp [hd, ht, h, append_points_cloud_none s (zipEvent ev) h]

/-- C7 (counterexample): the progress counter still accepts the increment of
a late depth-type completion event after teardown: from the torn-down example
state (`_progress = 0`, point cloud dropped) the event takes `_progress` to
`1`, while only the point-cloud append is rejected. -/
theorem late_event_increments_progress :
    tornState._progress = 0 ∧ tornState.point_cloud = none ∧
    (image_processed tornState depthEventEx).1._progress = 1 ∧
    (image_processed tornState depthEventEx).1.point_cloud = none ∧
    (1 : Nat) ≠ 0 := by
  decide

/-- C7 (amended): a frame-completion event arriving after the session was
torn down is handled without a crash and cannot trigger a finalization, and
the accumulator rejects the append — the point cloud stays dropped; the
progress counter, however, does accept the increment (it becomes 1). -/
theorem late_event_after_teardown (s : ScanState) (ev : ImageEvent) :
    (image_processed (reset_scanner_state s).1 ev).1.point_cloud = none ∧
    (image_processed (reset_scanner_state s).1 ev).1._progress = 1 ∧
    countComplete (image_processed (reset_scanner_state s).1 ev).2 = 0 := by
  have hp : (reset_scanner_state s).1._progress = 0 := rfl
  have ht : (reset_scanner_state s).1._total = 0 := rfl
  refine ⟨image_processed_cloud_none _ _ rfl, ?_, ?_⟩
  · rw [image_processed_progress, hp, ht]
    simp
  · rw [countComplete_image_processed, hp, ht]
    simp

theorem stopped_texture_step (s : ScanState) (h : s._stop_scan = true) :
    scan_next_texture_position s = (s, []) := by
  unfold scan_next_texture_position
  rw [h]
  simp

theorem stopped_object_step (s : ScanState) (h : s._stop_scan = true) :
    scan_next_object_position s = (s, []) := by
  unfold scan_next_object_position
  rw [h]
  simp

/-- C8: when the cancel flag is set, a texture-phase or object-phase step
leaves the state unchanged and performs no action at all — no frame
acquisition, no task enqueue, no self-advance post. -/
theorem cancelled_step_is_inert (s : ScanState) (h : s._stop_scan = true) :
    scan_next_texture_position s = (s, []) ∧
    scan_next_object_position s = (s, []) :=
  ⟨stopped_texture_step s h, stopped_object_step s h⟩

/-- Witness for C8 at the example state with a pending stop request. -/
theorem cancelled_step_is_inert_witness :
    stoppedState._stop_scan = true ∧
    (scan_next_texture_position stoppedState = (stoppedState, []) ∧
     scan_next_object_position stoppedState = (stoppedState, [])) :=
  ⟨rfl, cancelled_step_is_inert stoppedState rfl⟩

/-- C9 (counterexample): in the active one-frame session
(`_number_of_pictures = 1`, `_total = 2`) two texture-phase steps take
`current_position` to `2`, violating `current_position ≤ framesPerRotation`
right after the last acquisition of the phase. -/
theorem position_exceeds_frames :
    0 < smallStartState._total ∧
    smallStartState._number_of_pictures = 1 ∧
    smallStartState.current_position = 0 ∧
    (scan_next_texture_position
        (scan_next_texture_position smallStartState).1).1.current_position = 2 ∧
    (scan_next_texture_position
        (scan_next_texture_position smallStartState).1).1._number_of_pictures = 1 ∧
    ¬ ((scan_next_texture_position
          (scan_next_texture_position smallStartState).1).1.current_position ≤
        (scan_next_texture_position
          (scan_next_texture_position smallStartState).1).1._number_of_pictures) := by
  decide

theorem scan_next_texture_finish_state (s : ScanState) (h1 : s._stop_scan = false)
    (h2 : ¬ s.current_position ≤ s._number_of_pictures) :
    (scan_next_texture_position s).1.current_position = 0 ∧
    (scan_next_texture_position s).1._number_of_pictures = s._number_of_pictures ∧
    (scan_next_texture_position s).1._total = s._total := by
  unfold scan_next_texture_position finish_texture_scan
  rw [if_pos h1, if_neg h2]
  simp

theorem scan_next_object_finish_state (s : ScanState) (h1 : s._stop_scan = false)
    (h2 : ¬ s.current_position ≤ s._number_of_pictures) :
    (scan_next_object_position s).1.current_position = s.current_position ∧
    (scan_next_object_position s).1._number_of_pictures = s._number_of_pictures ∧
    (scan_next_object_position s).1._total = s._total := by
  unfold scan_next_object_position finish_object_scan
  rw [if_pos h1, if_neg h2]
  simp

/-- C9 (amended): throughout an active session (`_total > 0`) every
texture-phase or object-phase step preserves
`0 ≤ current_position ≤ _number_of_pictures + 1` — the position does reach
`framesPerRotation + 1` right after a phase's last acquisition — and keeps
`_total` positive. -/
theorem position_invariant_step (s : ScanState)
    (h1 : s.current_position ≤ s._number_of_pictures + 1) (h2 : 0 < s._total) :
    ((scan_next_texture_position s).1.current_position ≤
        (scan_next_texture_position s).1._number_of_pictures + 1 ∧
      0 < (scan_next_texture_position s).1._total) ∧
    ((scan_next_object_position s).1.current_position ≤
        (scan_next_object_position s).1._number_of_pictures + 1 ∧
      0 < (scan_next_object_position s).1._total) := by
  by_cases hb : s._stop_scan = true
  · rw [stopped_texture_step s hb, stopped_object_step s hb]
    exact ⟨⟨h1, h2⟩, ⟨h1, h2⟩⟩
  · have hs : s._stop_scan = false := by
      revert hb
      cases s._stop_scan <;> simp
    constructor
    · by_cases hp : s.current_position ≤ s._number_of_pictures
      · obtain ⟨e1, e2, _, e4, _, _, _⟩ := scan_next_texture_acquire s hs hp
        rw [e1, e2, e4]
        exact ⟨by omega, h2⟩
      · obtain ⟨e1, e2, e3⟩ := scan_next_texture_finish_state s hs hp
        rw [e1, e2, e3]
        exact ⟨by omega, h2⟩
    · by_cases hp : s.current_position ≤ s._number_of_pictures
      · obtain ⟨e1, e2, _, e4, _, _, _⟩ := scan_next_object_acquire s hs hp
        rw [e1, e2, e4]
        exact ⟨by omega, h2⟩
      · obtain ⟨e1, e2, e3⟩ := scan_next_object_finish_state s hs hp
        rw [e1, e2, e3]
        exact ⟨h1, h2⟩

/-- Witness for C9 (amended) at the started example state. -/
theorem position_invariant_step_witness :
    colorStartState.current_position ≤ colorStartState._number_of_pictures + 1 ∧
    0 < colorStartState._total ∧
    (((scan_next_texture_position colorStartState).1.current_position ≤
        (scan_next_texture_position colorStartState).1._number_of_pictures + 1 ∧
      0 < (scan_next_texture_position colorStartState).1._total) ∧
     ((scan_next_object_position colorStartState).1.current_position ≤
        (scan_next_object_position colorStartState).1._number_of_pictures + 1 ∧
      0 < (scan_next_object_position colorStartState).1._total)) :=
  ⟨by decide, by decide,
    position_invariant_step colorStartState (by decide) (by decide)⟩

/-- C10: for every depth-type completion event the batch appended to the
point cloud is the zipped `(x, y, z, r, g, b)` rows, and every point of the
broadcast progress notice is the corresponding appended record with its y and
z coordinates swapped and its r and b color channels swapped. -/
theorem broadcast_points_swap_yz_rb (s : ScanState) (ev : ImageEvent)
    (pc : List PCRecord) (hd : ev.image_type = "depth")
    (hpc : s.point_cloud = some pc) :
    (append_points s (zipEvent ev)).point_cloud = some (pc ++ zipEvent ev) ∧
    Action.appendPoints (zipEvent ev) ∈ (image_processed s ev).2 ∧
    Action.broadcastProgress ((zipEvent ev).map swap_point) (s._progress + 1)
        s._total ∈ (image_processed s ev).2 ∧
    ∀ p : PCRecord, swap_point p =
      { x := p.x, y := p.z, z := p.y, r := p.b, g := p.g, b := p.r } := by
  refine ⟨append_points_cloud s _ pc hpc, ?_, ?_, fun p => rfl⟩ <;>
    · unfold image_processed
      by_cases ht : s._progress + 1 = s._total <;> simp [hd, ht]

/-- Witness for C10 at the started example state and the sample depth event. -/
theorem broadcast_points_swap_yz_rb_witness :
    depthEventEx.image_type = "depth" ∧
    colorStartState.point_cloud = some [] ∧
    ((append_points colorStartState (zipEvent depthEventEx)).point_cloud =
        some ([] ++ zipEvent depthEventEx) ∧
      Action.appendPoints (zipEvent depthEventEx) ∈
        (image_processed colorStartState depthEventEx).2 ∧
      Action.broadcastProgress ((zipEvent depthEventEx).map swap_point)
          (colorStartState._progress + 1) colorStartState._total ∈
        (image_processed colorStartState depthEventEx).2 ∧
      ∀ p : PCRecord, swap_point p =
        { x := p.x, y := p.z, z := p.y, r := p.b, g := p.g, b := p.r }) :=
  ⟨rfl, rfl, broadcast_points_swap_yz_rb colorStartState depthEventEx [] rfl rfl⟩

end FabScan
